import Mathlib

/-!
Verification of the authentication and authorization layer of the
amaze-backend repository (`backend/app/core/security.py`,
`backend/app/routers/auth.py`).

Modelling conventions:
* A Python `str` is a list of Unicode code points (`List Nat`);
  `s[:72]` is `List.take 72`, `s.encode("utf-8")` is `utf8Encode`.
* The passlib/bcrypt primitive is modelled by its documented contract:
  it consumes at most the first 72 *bytes* of its input (silent
  truncation, the CryptContext default), the digest is an injective
  function of the salt and the truncated input, and `CryptContext.verify`
  raises `ValueError` when the stored value cannot be identified as a
  bcrypt digest.  The key derivation itself is abstracted by the
  injective `bcryptKdf`.
* PyJWT's `jwt.decode` is modelled by its documented order of checks:
  parse (malformed tokens fail), then signature verification, then
  claim validation (`exp`).  The HMAC signature is abstracted by the
  injective `jwtSign`.
* The database table `staff_credentials` is a list of rows; `fetch_one`
  with `where id = %s` / `where username = %s` is `List.find?`.
* Randomness (the bcrypt salt) and the clock (`now`) are explicit
  parameters.  Timestamp columns are not modelled: no claim mentions them.
-/

/-- UTF-8 encoding of a single Unicode code point, as byte values. -/
def utf8CharBytes (c : Nat) : List Nat :=
  if c < 0x80 then [c]
  else if c < 0x800 then
    [0xC0 + c / 0x40, 0x80 + c % 0x40]
  else if c < 0x10000 then
    [0xE0 + c / 0x1000, 0x80 + (c / 0x40) % 0x40, 0x80 + c % 0x40]
  else
    [0xF0 + c / 0x40000, 0x80 + (c / 0x1000) % 0x40,
     0x80 + (c / 0x40) % 0x40, 0x80 + c % 0x40]

/-- Python `s.encode("utf-8")`: UTF-8 byte sequence of a string. -/
def utf8Encode (s : List Nat) : List Nat :=
  s.flatMap utf8CharBytes

/-- The byte sequence that actually reaches the bcrypt key derivation when
the repository calls `pwd_context.hash(password[:72])`: the Python
character-wise slice `[:72]`, composed with the primitive's own 72-byte
truncation. -/
def bcryptSecret (p : List Nat) : List Nat :=
  (utf8Encode (p.take 72)).take 72

/-- Abstract bcrypt key derivation: injective in the (salt, secret) pair.
The digest stores `bcryptKdf salt secret`, and verification recomputes it. -/
def bcryptKdf (salt : Nat) (secret : List Nat) : List Nat :=
  salt :: secret

/-- A parsed bcrypt digest: the salt and the derived key. -/
structure BcryptDigest where
  salt : Nat
  key : List Nat
  deriving DecidableEq, Repr

/-- Serialised form of a bcrypt digest, as stored in `password_hash`
(the `[36, 50, 98, 36]` prefix plays the role of the `"$2b$"` marker). -/
def encodeDigest (d : BcryptDigest) : List Nat :=
  36 :: 50 :: 98 :: 36 :: d.salt :: d.key

/-- Passlib's hash identification: a stored value parses as a bcrypt digest
exactly when it carries the scheme marker. -/
def parseDigest : List Nat → Option BcryptDigest
  | 36 :: 50 :: 98 :: 36 :: salt :: key => some ⟨salt, key⟩
  | _ => none

/-- Faults raised by the passlib layer. -/
inductive PasslibError where
  /-- `ValueError: hash could not be identified` from `CryptContext.verify`. -/
  | hashNotIdentified
  deriving DecidableEq, Repr

/-- `hash_password(password)`: `pwd_context.hash(password[:72])`.
The salt passlib draws at random is an explicit parameter. -/
def hash_password (salt : Nat) (password : List Nat) : List Nat :=
  encodeDigest ⟨salt, bcryptKdf salt (bcryptSecret password)⟩

/-- `verify_password(plain_password, hashed_password)`:
`pwd_context.verify(plain_password[:72], hashed_password)`.  Passlib first
identifies the stored hash (raising `ValueError` when it cannot), then
recomputes the key from the stored salt and compares. -/
def verify_password (plain : List Nat) (stored : List Nat) :
    Except PasslibError Bool :=
  match parseDigest stored with
  | none => .error .hashNotIdentified
  | some d => .ok (decide (bcryptKdf d.salt (bcryptSecret plain) = d.key))

theorem length_utf8CharBytes_pos (c : Nat) : 0 < (utf8CharBytes c).length := by
  unfold utf8CharBytes
  repeat' split
  all_goals simp

theorem utf8Encode_append (a b : List Nat) :
    utf8Encode (a ++ b) = utf8Encode a ++ utf8Encode b := by
  simp [utf8Encode]

theorem length_le_length_utf8Encode (s : List Nat) :
    s.length ≤ (utf8Encode s).length := by
  induction s with
  | nil => simp [utf8Encode]
  | cons c cs ih =>
      have h := length_utf8CharBytes_pos c
      simp only [utf8Encode, List.flatMap_cons, List.length_append,
        List.length_cons] at *
      omega

/-- The character-wise Python slice composed with the primitive's byte-wise
truncation is exactly byte-wise truncation to 72 bytes. -/
theorem bcryptSecret_eq_take_utf8 (p : List Nat) :
    bcryptSecret p = (utf8Encode p).take 72 := by
  by_cases h : p.length ≤ 72
  · simp [bcryptSecret, List.take_of_length_le h]
  · have hsplit : p = p.take 72 ++ p.drop 72 := (List.take_append_drop 72 p).symm
    have hlen : 72 ≤ (utf8Encode (p.take 72)).length := by
      have h1 : (p.take 72).length = 72 := by
        simp [List.length_take]; omega
      have h2 := length_le_length_utf8Encode (p.take 72)
      omega
    calc bcryptSecret p
        = (utf8Encode (p.take 72)).take 72 := rfl
      _ = ((utf8Encode (p.take 72)) ++ utf8Encode (p.drop 72)).take 72 := by
          rw [List.take_append_of_le_length hlen]
      _ = (utf8Encode (p.take 72 ++ p.drop 72)).take 72 := by
          rw [utf8Encode_append]
      _ = (utf8Encode p).take 72 := by rw [List.take_append_drop]

/-- Appending beyond the 72-byte boundary does not change the bcrypt input. -/
theorem bcryptSecret_append_of_le (p extra : List Nat)
    (h : 72 ≤ (utf8Encode p).length) :
    bcryptSecret (p ++ extra) = bcryptSecret p := by
  rw [bcryptSecret_eq_take_utf8, bcryptSecret_eq_take_utf8, utf8Encode_append,
    List.take_append_of_le_length h]

/-! ## JWT model (PyJWT `encode`/`decode` with HS256) -/

/-- The claim set the backend puts in a token: `sub` and `role` from
`create_access_token`'s `subject` dict, plus `exp` and `iat` (seconds). -/
structure Payload where
  sub : Option String
  role : Option String
  exp : Nat
  iat : Nat
  deriving DecidableEq, Repr

/-- Numeric code of a claim string, used only to feed the signature. -/
def encodeString (s : String) : Nat :=
  s.toList.foldl (fun a c => Nat.pair a c.toNat) 1

/-- Numeric code of an optional claim string. -/
def encodeOptString : Option String → Nat
  | none => 0
  | some s => 1 + encodeString s

/-- Numeric code of a payload, used only to feed the signature. -/
def encodePayload (p : Payload) : Nat :=
  Nat.pair (encodeOptString p.sub)
    (Nat.pair (encodeOptString p.role) (Nat.pair p.exp p.iat))

/-- Abstract HS256 signature: injective in the (secret, payload) pair. -/
def jwtSign (secret : Nat) (p : Payload) : Nat :=
  Nat.pair secret (encodePayload p)

/-- A bearer token as presented on the wire: either the three well-formed
JWT segments (payload + signature) or bytes that do not parse as a JWT. -/
inductive RawToken where
  | wellFormed (payload : Payload) (sig : Nat)
  | garbage (s : String)
  deriving DecidableEq, Repr

/-- The distinct `jwt.PyJWTError` subclasses `jwt.decode` can raise. -/
inductive JwtError where
  /-- `DecodeError`: the token does not parse. -/
  | decodeError
  /-- `InvalidSignatureError`: signature mismatch. -/
  | signatureInvalid
  /-- `ExpiredSignatureError`: the `exp` claim is in the past. -/
  | expired
  deriving DecidableEq, Repr

/-- `jwt.decode(token, secret, algorithms=["HS256"])`: parse, then verify
the signature, then validate the `exp` claim, in that order. -/
def jwtDecode (secret now : Nat) : RawToken → Except JwtError Payload
  | .garbage _ => .error .decodeError
  | .wellFormed p sig =>
      if sig ≠ jwtSign secret p then .error .signatureInvalid
      else if p.exp ≤ now then .error .expired
      else .ok p

/-- `create_access_token({"sub": sub, "role": role})` with the default
expiry window: signs `sub`/`role` plus `exp = now + delta` and `iat = now`. -/
def create_access_token (secret now delta : Nat) (sub role : String) :
    RawToken :=
  let p : Payload := ⟨some sub, some role, now + delta, now⟩
  .wellFormed p (jwtSign secret p)

/-! ## The credential store and the request-level dependencies -/

/-- A row of the `staff_credentials` table. -/
structure StaffCredential where
  id : Nat
  staff_id : Nat
  username : String
  password_hash : List Nat
  role : String
  status : String
  deriving DecidableEq, Repr

/-- The `staff_credentials` table. -/
abbrev Db := List StaffCredential

/-- `fetch_one("select ... where id = %s", (i,))`. -/
def lookupById (db : Db) (i : Nat) : Option StaffCredential :=
  List.find? (fun r => r.id = i) db

/-- `fetch_one("SELECT ... WHERE username = %s", (u,))`. -/
def lookupByUsername (db : Db) (u : String) : Option StaffCredential :=
  List.find? (fun r => r.username = u) db

/-- Python `int(s)` on the strings this backend can meet as a `sub` claim
(tokens carry `str(user["id"])`, a decimal numeral): a non-empty all-digit
string parses, anything else raises `ValueError` (modelled as `none`). -/
def pyInt? (s : String) : Option Nat :=
  let cs := s.toList
  if cs ≠ [] ∧ cs.all (fun c => c.isDigit) then
    some (cs.foldl (fun a c => 10 * a + (c.toNat - 48)) 0)
  else none

/-- How a request handler terminates abnormally. -/
inductive AuthErr where
  /-- `HTTPException(status_code, detail)`. -/
  | http (code : Nat) (detail : String)
  /-- An uncaught Python exception (a 500 to the client), e.g. the
  `ValueError` from `int(user_id)` on a non-numeric `sub`. -/
  | uncaught (msg : String)
  deriving DecidableEq, Repr

/-- `get_current_user`: the bearer-token authentication dependency.
`credentials = none` models a request without an `Authorization` header
(`HTTPBearer(auto_error=False)` then yields `None`). -/
def get_current_user (db : Db) (secret now : Nat)
    (credentials : Option RawToken) : Except AuthErr StaffCredential :=
  match credentials with
  | none => .error (.http 401 "Not authenticated")
  | some token =>
    match jwtDecode secret now token with
    | .error _ => .error (.http 401 "Could not validate credentials")
    | .ok payload =>
      match payload.sub with
      | none => .error (.http 401 "Invalid token")
      | some s =>
        if s = "" then .error (.http 401 "Invalid token")
        else
          match pyInt? s with
          | none => .error (.uncaught "ValueError from int(user_id)")
          | some i =>
            match lookupById db i with
            | none => .error (.http 401 "Inactive or missing user")
            | some user =>
              if user.status ≠ "active" then
                .error (.http 401 "Inactive or missing user")
              else .ok user

/-- The fixed role registry `ALLOWED_ROLES`. -/
def ALLOWED_ROLES : List String :=
  ["admin", "sales", "project", "project_manager", "designer", "printing",
   "logistics", "accounts", "hr", "staff", "crm"]

/-- The per-request closure `_dep` built by `require_roles`, applied to the
account context produced by `get_current_user`. -/
def roleDep (roles : List String) (user : StaffCredential) :
    Except AuthErr StaffCredential :=
  if user.role ∈ roles then .ok user
  else .error (.http 403 "Insufficient role")

/-- `require_roles(roles)`: validates the permitted set against
`ALLOWED_ROLES` at configuration time, raising `ValueError` (fail fast)
on any unknown role, and otherwise returns the request dependency. -/
def require_roles (roles : List String) :
    Except String (StaffCredential → Except AuthErr StaffCredential) :=
  let invalid := roles.filter (fun r => r ∉ ALLOWED_ROLES)
  if invalid ≠ [] then .error "Invalid roles"
  else .ok (roleDep roles)

/-! ## The signup handler -/

/-- The JSON body of `POST /auth/signup` (`payload.get(...)` yields `none`
for an absent key). -/
structure SignupPayload where
  username : Option String
  password : Option (List Nat)
  staff_id : Option Nat
  role : Option String
  deriving DecidableEq, Repr

/-- Python truthiness of the three required fields: `None`, `""` and `0`
are falsy. -/
def requiredFieldMissing (pl : SignupPayload) : Prop :=
  pl.username = none ∨ pl.username = some "" ∨
  pl.password = none ∨ pl.password = some [] ∨
  pl.staff_id = none ∨ pl.staff_id = some 0

instance (pl : SignupPayload) : Decidable (requiredFieldMissing pl) := by
  unfold requiredFieldMissing; infer_instance

/-- The role `signup` determines:
`role_input or ("admin" if is_first_user else "sales")`, where a falsy
`role_input` (absent key or empty string) selects the default. -/
def chooseRole (isFirst : Bool) : Option String → String
  | none => if isFirst then "admin" else "sales"
  | some r => if r = "" then (if isFirst then "admin" else "sales") else r

/-- `signup`: validates the body, rejects over-long passwords and taken
usernames, determines the role (first user defaults to `"admin"`, later
ones to `"sales"`, a truthy `role` field wins), hashes the password and
inserts the row with status `"active"`.  Returns the updated table and the
row the trailing re-select reads back.  The serial `id` is modelled as
`db.length + 1`. -/
def signup (salt : Nat) (db : Db) (pl : SignupPayload) :
    Except AuthErr (Db × StaffCredential) :=
  if requiredFieldMissing pl then
    .error (.http 400 "username, password, and staff_id are required")
  else
    let u := pl.username.getD ""
    let pw := pl.password.getD []
    let sid := pl.staff_id.getD 0
    if (utf8Encode pw).length > 72 then
      .error (.http 400 "Password cannot exceed 72 bytes")
    else
      match lookupByUsername db u with
      | some _ => .error (.http 400 "Username already exists")
      | none =>
        let role := chooseRole (db.length == 0) pl.role
        let hashed := hash_password salt (pw.take 72)
        let row : StaffCredential :=
          ⟨db.length + 1, sid, u, hashed, role, "active"⟩
        .ok (db ++ [row], row)

/-- Role a successful signup stored, for stating results about `signup`. -/
def storedRole (res : Except AuthErr (Db × StaffCredential)) :
    Option String :=
  match res with
  | .ok (_, row) => some row.role
  | .error _ => none

/-! ## Shared lemmas -/

/-- Verification against a digest produced by `hash_password` compares the
derived keys of the two bcrypt inputs. -/
theorem verify_hash_password (salt : Nat) (q p : List Nat) :
    verify_password q (hash_password salt p) =
      .ok (decide ((salt :: bcryptSecret q : List Nat) = salt :: bcryptSecret p)) :=
  rfl

theorem verify_hash_password_eq_ok_true (salt : Nat) (q p : List Nat)
    (h : bcryptSecret q = bcryptSecret p) :
    verify_password q (hash_password salt p) = .ok true := by
  rw [verify_hash_password, h]
  simp

theorem signup_ok_role (salt : Nat) (db : Db) (pl : SignupPayload)
    (res : Db × StaffCredential) (h : signup salt db pl = .ok res) :
    res.2.role = chooseRole (db.length == 0) pl.role := by
  unfold signup at h
  split at h
  · exact absurd h (by simp)
  · dsimp only at h
    split at h
    · exact absurd h (by simp)
    · split at h
      · exact absurd h (by simp)
      · simp only [Except.ok.injEq] at h
        rw [← h]

/-! ## Claim theorems -/

/-- C2: token verification checks the signature before trusting any
embedded claim and checks expiry independently of signature validity: a
correctly signed token whose `exp` is before `now` fails with `expired`
(not `signatureInvalid`), and a token signed under a different secret
fails with `signatureInvalid`. -/
theorem C2_signature_before_expiry :
    (∀ secret now p, p.exp < now →
      jwtDecode secret now (.wellFormed p (jwtSign secret p)) =
        .error .expired) ∧
    (∀ secret secret' now p, secret' ≠ secret →
      jwtDecode secret now (.wellFormed p (jwtSign secret' p)) =
        .error .signatureInvalid) := by
  constructor
  · intro secret now p hexp
    simp [jwtDecode]
    omega
  · intro secret secret' now p hne
    have hsig : jwtSign secret' p ≠ jwtSign secret p := by
      intro h
      exact hne (Nat.pair_eq_pair.mp h).1
    simp [jwtDecode, hsig]

/-- Witness for C2 at concrete inputs: a token with `exp = 5` checked at
`now = 10` under the right secret is `expired`; a token signed under
secret 1 but checked under secret 0 is `signatureInvalid`. -/
theorem C2_signature_before_expiry_witness :
    jwtDecode 0 10 (.wellFormed ⟨some "1", none, 5, 0⟩
        (jwtSign 0 ⟨some "1", none, 5, 0⟩)) = .error .expired ∧
    jwtDecode 0 10 (.wellFormed ⟨some "1", none, 50, 0⟩
        (jwtSign 1 ⟨some "1", none, 50, 0⟩)) = .error .signatureInvalid :=
  ⟨C2_signature_before_expiry.1 0 10 ⟨some "1", none, 5, 0⟩ (by decide),
   C2_signature_before_expiry.2 0 1 10 ⟨some "1", none, 50, 0⟩ (by decide)⟩

/-- C3: the bytes reaching the bcrypt key derivation are exactly the
first 72 *bytes* of the password's UTF-8 encoding (byte-wise truncation,
even though the Python slice is character-wise), and hence the truncation
law holds: for a password of at least 72 UTF-8 bytes, appending any
suffix leaves the digest unchanged and the two verify interchangeably. -/
theorem C3_truncation_law :
    (∀ p, bcryptSecret p = (utf8Encode p).take 72) ∧
    (∀ salt p extra, 72 ≤ (utf8Encode p).length →
      hash_password salt p = hash_password salt (p ++ extra) ∧
      verify_password (p ++ extra) (hash_password salt p) = .ok true ∧
      verify_password p (hash_password salt (p ++ extra)) = .ok true) := by
  constructor
  · exact bcryptSecret_eq_take_utf8
  · intro salt p extra h
    have heq := bcryptSecret_append_of_le p extra h
    refine ⟨?_, ?_, ?_⟩
    · simp [hash_password, heq]
    · exact verify_hash_password_eq_ok_true salt _ _ heq
    · exact verify_hash_password_eq_ok_true salt _ _ heq.symm

/-- Witness for C3 at a concrete input: a 72-byte password of 72 `'a'`
characters, extended by `"x"`, hashes to the same digest and
cross-verifies. -/
theorem C3_truncation_law_witness :
    hash_password 0 (List.replicate 72 97) =
      hash_password 0 (List.replicate 72 97 ++ [120]) ∧
    verify_password (List.replicate 72 97 ++ [120])
      (hash_password 0 (List.replicate 72 97)) = .ok true ∧
    verify_password (List.replicate 72 97)
      (hash_password 0 (List.replicate 72 97 ++ [120])) = .ok true :=
  C3_truncation_law.2 0 (List.replicate 72 97) [120] (by decide)

/-- C5 as stated is false at the 72-byte boundary: for the 72-byte
password `p` of 72 `'a'`s, `verify(p ++ "x", hash(p))` is `true`, not
`false`, because both sides truncate to the same 72 bytes. -/
theorem C5_counterexample :
    verify_password (List.replicate 72 97 ++ [120])
      (hash_password 0 (List.replicate 72 97)) = .ok true := rfl

/-- C5 amended: `verify(p, hash(p))` is `true` for every password, and
`verify(p ++ "x", hash(p))` is `false` whenever the UTF-8 encoding of `p`
is shorter than 72 bytes; at 72 bytes or more the appended `"x"` falls
beyond the truncation boundary and verification returns `true` instead. -/
theorem C5_roundtrip_amended :
    (∀ salt p, verify_password p (hash_password salt p) = .ok true) ∧
    (∀ salt p, (utf8Encode p).length < 72 →
      verify_password (p ++ [120]) (hash_password salt p) = .ok false) := by
  constructor
  · intro salt p
    exact verify_hash_password_eq_ok_true salt p p rfl
  · intro salt p h
    have hp : bcryptSecret p = utf8Encode p := by
      rw [bcryptSecret_eq_take_utf8]
      exact List.take_of_length_le (Nat.le_of_lt h)
    have hx : bcryptSecret (p ++ [120]) = utf8Encode p ++ [120] := by
      rw [bcryptSecret_eq_take_utf8, utf8Encode_append]
      have : utf8Encode [120] = [120] := rfl
      rw [this]
      exact List.take_of_length_le (by simp; omega)
    have hne : bcryptSecret (p ++ [120]) ≠ bcryptSecret p := by
      rw [hp, hx]
      intro hcontra
      have := congrArg List.length hcontra
      simp at this
    rw [verify_hash_password]
    simp [hne]

/-- Witness for C5 (amended) at a concrete input: the single-byte
password `"a"` round-trips, and `"ax"` does not verify against it. -/
theorem C5_roundtrip_amended_witness :
    verify_password [97] (hash_password 0 [97]) = .ok true ∧
    verify_password ([97] ++ [120]) (hash_password 0 [97]) = .ok false :=
  ⟨C5_roundtrip_amended.1 0 [97],
   C5_roundtrip_amended.2 0 [97] (by decide)⟩

/-- C6 as stated is false: on a stored value that does not parse as a
bcrypt digest, `verify_password` raises (passlib's
`ValueError: hash could not be identified`) instead of returning false. -/
theorem C6_counterexample :
    verify_password [] [99] ≠ .ok false ∧
    verify_password [] [99] = .error .hashNotIdentified :=
  ⟨fun h => Except.noConfusion h, rfl⟩

/-- C6 amended: for every password and every stored value that does not
parse as a bcrypt digest, verification raises a `ValueError` fault
(it does not return false, and it does not return at all). -/
theorem C6_malformed_raises (plain stored : List Nat)
    (h : parseDigest stored = none) :
    verify_password plain stored = .error .hashNotIdentified := by
  simp [verify_password, h]

/-- Witness for C6 (amended) at a concrete input. -/
theorem C6_malformed_raises_witness :
    parseDigest [99] = none ∧
    verify_password [] [99] = .error .hashNotIdentified :=
  ⟨rfl, C6_malformed_raises [] [99] rfl⟩

/-- C1: only credentials with status `"active"` pass authentication.  For
a well-formed, correctly signed, unexpired token whose subject either has
no row in the store or a row whose status is not `"active"`, the request
is rejected with 401 and no account context is produced. -/
theorem C1_inactive_rejected (db : Db) (secret now : Nat) (p : Payload)
    (s : String) (i : Nat)
    (hexp : now < p.exp) (hsub : p.sub = some s) (hne : s ≠ "")
    (hint : pyInt? s = some i)
    (hrow : ∀ r, lookupById db i = some r → r.status ≠ "active") :
    get_current_user db secret now
      (some (.wellFormed p (jwtSign secret p))) =
      .error (.http 401 "Inactive or missing user") := by
  have hdec : jwtDecode secret now (.wellFormed p (jwtSign secret p)) =
      .ok p := by
    simp [jwtDecode]
    omega
  simp only [get_current_user, hdec, hsub, hint]
  rw [if_neg hne]
  cases hfind : lookupById db i with
  | none => simp [hfind]
  | some r =>
      have hr := hrow r hfind
      simp [hfind, hr]

/-- Witness for C1 at a concrete input: a deactivated account (status
`"inactive"`) cannot use an already-issued, unexpired, correctly signed
token. -/
theorem C1_inactive_rejected_witness :
    get_current_user [⟨1, 5, "u", [], "sales", "inactive"⟩] 7 50
      (some (.wellFormed ⟨some "1", some "sales", 100, 0⟩
        (jwtSign 7 ⟨some "1", some "sales", 100, 0⟩))) =
      .error (.http 401 "Inactive or missing user") :=
  C1_inactive_rejected [⟨1, 5, "u", [], "sales", "inactive"⟩] 7 50
    ⟨some "1", some "sales", 100, 0⟩ "1" 1 (by decide) rfl (by decide) rfl
    (fun r hr => by
      have h2 := Option.some.inj hr
      rw [← h2]
      decide)

/-- C10: a token that decodes and signature-verifies successfully but
carries no `sub` claim (or an empty one) is rejected with 401 before any
store lookup: the result is the same constant for every store `db`. -/
theorem C10_falsy_sub (db : Db) (secret now : Nat) (tok : RawToken)
    (p : Payload) (hok : jwtDecode secret now tok = .ok p)
    (hsub : p.sub = none ∨ p.sub = some "") :
    get_current_user db secret now (some tok) =
      .error (.http 401 "Invalid token") := by
  simp only [get_current_user, hok]
  rcases hsub with h | h <;> simp [h]

/-- Witness for C10 at a concrete input: an empty `sub` is rejected even
though the store holds an active row. -/
theorem C10_falsy_sub_witness :
    get_current_user [⟨1, 1, "u", [], "sales", "active"⟩] 3 50
      (some (.wellFormed ⟨some "", none, 100, 0⟩
        (jwtSign 3 ⟨some "", none, 100, 0⟩))) =
      .error (.http 401 "Invalid token") :=
  C10_falsy_sub [⟨1, 1, "u", [], "sales", "active"⟩] 3 50
    (.wellFormed ⟨some "", none, 100, 0⟩ (jwtSign 3 ⟨some "", none, 100, 0⟩))
    ⟨some "", none, 100, 0⟩ rfl (Or.inr rfl)

/-- C7: role-gated authorization decides exactly by set membership: an
account whose role is in the permitted set passes through with the same
account context, any other role is rejected with 403, and a permitted set
drawn from the registry configures successfully to exactly this guard. -/
theorem C7_role_membership :
    (∀ roles (user : StaffCredential), user.role ∈ roles →
      roleDep roles user = .ok user) ∧
    (∀ roles (user : StaffCredential), user.role ∉ roles →
      roleDep roles user = .error (.http 403 "Insufficient role")) ∧
    (∀ roles, (∀ r ∈ roles, r ∈ ALLOWED_ROLES) →
      require_roles roles = .ok (roleDep roles)) := by
  refine ⟨?_, ?_, ?_⟩
  · intro roles user h
    simp [roleDep, h]
  · intro roles user h
    simp [roleDep, h]
  · intro roles h
    have hfil : roles.filter (fun r => r ∉ ALLOWED_ROLES) = [] := by
      rw [List.filter_eq_nil_iff]
      intro a ha
      simp [h a ha]
    unfold require_roles
    dsimp only
    rw [hfil]
    simp

/-- Witness for C7 at concrete inputs: against the permitted set
`["accounts"]`, role `"accounts"` passes through and role `"sales"` is
rejected with 403; the set configures successfully. -/
theorem C7_role_membership_witness :
    roleDep ["accounts"] ⟨1, 1, "a", [], "accounts", "active"⟩ =
      .ok ⟨1, 1, "a", [], "accounts", "active"⟩ ∧
    roleDep ["accounts"] ⟨2, 2, "s", [], "sales", "active"⟩ =
      .error (.http 403 "Insufficient role") ∧
    require_roles ["accounts"] = .ok (roleDep ["accounts"]) :=
  ⟨C7_role_membership.1 ["accounts"] ⟨1, 1, "a", [], "accounts", "active"⟩
      (by decide),
   C7_role_membership.2.1 ["accounts"] ⟨2, 2, "s", [], "sales", "active"⟩
      (by decide),
   C7_role_membership.2.2 ["accounts"] (by decide)⟩

/-- C8 as stated is false: two authentication failures (missing token
vs. undecodable token) both return 401 but with different detail strings,
so the response does reveal which check failed. -/
theorem C8_counterexample :
    get_current_user [] 0 0 none =
      .error (.http 401 "Not authenticated") ∧
    get_current_user [] 0 0 (some (.garbage "t")) =
      .error (.http 401 "Could not validate credentials") ∧
    ("Not authenticated" : String) ≠ "Could not validate credentials" :=
  ⟨rfl, rfl, by decide⟩

/-- C8 amended: every authentication failure of `get_current_user` carries
status 401 and one of four fixed detail strings, so the failure *class*
(missing token; undecodable token; missing or empty `sub`; missing or
inactive account) is distinguishable, while failures within one class —
in particular a bad signature vs. an expired token, or a missing vs. an
inactive account — produce identical responses. -/
theorem C8_generic_401_amended :
    (∀ (db : Db) (secret now : Nat) (cred : Option RawToken) (c : Nat)
        (d : String),
      get_current_user db secret now cred = .error (.http c d) →
      c = 401 ∧
        (d = "Not authenticated" ∨ d = "Could not validate credentials" ∨
         d = "Invalid token" ∨ d = "Inactive or missing user")) ∧
    (∀ (db : Db) (secret now : Nat) (tok tok' : RawToken)
        (e e' : JwtError),
      jwtDecode secret now tok = .error e →
      jwtDecode secret now tok' = .error e' →
      get_current_user db secret now (some tok) =
        get_current_user db secret now (some tok')) := by
  constructor
  · intro db secret now cred c d h
    cases cred with
    | none =>
        simp only [get_current_user, Except.error.injEq,
          AuthErr.http.injEq] at h
        exact ⟨h.1.symm, Or.inl h.2.symm⟩
    | some tok =>
        simp only [get_current_user] at h
        cases hd : jwtDecode secret now tok with
        | error e =>
            rw [hd] at h
            simp only [Except.error.injEq, AuthErr.http.injEq] at h
            exact ⟨h.1.symm, Or.inr (Or.inl h.2.symm)⟩
        | ok p =>
            rw [hd] at h
            dsimp only at h
            cases hs : p.sub with
            | none =>
                rw [hs] at h
                simp only [Except.error.injEq, AuthErr.http.injEq] at h
                exact ⟨h.1.symm, Or.inr (Or.inr (Or.inl h.2.symm))⟩
            | some s =>
                rw [hs] at h
                dsimp only at h
                by_cases he : s = ""
                · rw [if_pos he] at h
                  simp only [Except.error.injEq, AuthErr.http.injEq] at h
                  exact ⟨h.1.symm, Or.inr (Or.inr (Or.inl h.2.symm))⟩
                · rw [if_neg he] at h
                  cases hi : pyInt? s with
                  | none =>
                      rw [hi] at h
                      exact absurd h (by simp)
                  | some i =>
                      rw [hi] at h
                      dsimp only at h
                      cases hl : lookupById db i with
                      | none =>
                          rw [hl] at h
                          simp only [Except.error.injEq,
                            AuthErr.http.injEq] at h
                          exact ⟨h.1.symm,
                            Or.inr (Or.inr (Or.inr h.2.symm))⟩
                      | some u =>
                          rw [hl] at h
                          dsimp only at h
                          by_cases hu : u.status = "active"
                          · simp [hu] at h
                          · simp only [ne_eq, hu, not_false_iff, if_true,
                              Except.error.injEq, AuthErr.http.injEq] at h
                            exact ⟨h.1.symm,
                              Or.inr (Or.inr (Or.inr h.2.symm))⟩
  · intro db secret now tok tok' e e' h h'
    simp only [get_current_user, h, h']

/-- Witness for C8 (amended) at concrete inputs: the missing-token
response is among the four 401 responses, and two different undecodable
tokens are indistinguishable. -/
theorem C8_generic_401_amended_witness :
    ((401 : Nat) = 401 ∧
      (("Not authenticated" : String) = "Not authenticated" ∨
       ("Not authenticated" : String) = "Could not validate credentials" ∨
       ("Not authenticated" : String) = "Invalid token" ∨
       ("Not authenticated" : String) = "Inactive or missing user")) ∧
    get_current_user [] 0 0 (some (.garbage "a")) =
      get_current_user [] 0 0 (some (.garbage "b")) :=
  ⟨C8_generic_401_amended.1 [] 0 0 none 401 "Not authenticated" rfl,
   C8_generic_401_amended.2 [] 0 0 (.garbage "a") (.garbage "b")
     .decodeError .decodeError rfl rfl⟩

/-- C4 as stated is false: `signup` stores a caller-supplied role without
validating it against the registry, here the unknown role `"hacker"`. -/
theorem C4_counterexample :
    storedRole (signup 0 [] ⟨some "u", some [97], some 1, some "hacker"⟩) =
      some "hacker" ∧
    "hacker" ∉ ALLOWED_ROLES :=
  ⟨rfl, by decide⟩

/-- C4 amended: a permitted-role set handed to `require_roles` is checked
against the registry at configuration time and an unknown role fails fast
with `ValueError`; the role `signup` stores belongs to the registry when
the request supplies no (or an empty) role, because both defaults do, but
a caller-supplied non-empty role is stored as given, with no registry
validation. -/
theorem C4_registry_amended :
    (∀ roles r, r ∈ roles → r ∉ ALLOWED_ROLES →
      require_roles roles = .error "Invalid roles") ∧
    (∀ salt (db : Db) pl (res : Db × StaffCredential),
      signup salt db pl = .ok res →
      (pl.role = none ∨ pl.role = some "") →
      res.2.role ∈ ALLOWED_ROLES) ∧
    (∀ salt (db : Db) pl (res : Db × StaffCredential) r,
      signup salt db pl = .ok res → pl.role = some r → r ≠ "" →
      res.2.role = r) := by
  refine ⟨?_, ?_, ?_⟩
  · intro roles r hr hnot
    have hmem : r ∈ roles.filter (fun x => x ∉ ALLOWED_ROLES) := by
      rw [List.mem_filter]
      exact ⟨hr, by simp [hnot]⟩
    have hfil := List.ne_nil_of_mem hmem
    unfold require_roles
    dsimp only
    rw [if_pos hfil]
  · intro salt db pl res h hrole
    rw [signup_ok_role salt db pl res h]
    rcases hrole with h1 | h1 <;> rw [h1] <;>
      cases hb : (db.length == 0) <;> simp [chooseRole, hb] <;> decide
  · intro salt db pl res r h hr hne
    rw [signup_ok_role salt db pl res h, hr]
    simp [chooseRole, hne]

/-- Witness for C4 (amended) at concrete inputs: a set containing the
unknown role `"bogus"` fails fast; a signup without a role field stores a
registry role; a signup supplying `"crm"` stores `"crm"`. -/
theorem C4_registry_amended_witness :
    require_roles ["bogus"] = .error "Invalid roles" ∧
    ((([⟨1, 1, "u", [36, 50, 98, 36, 0, 0, 97], "admin", "active"⟩],
        ⟨1, 1, "u", [36, 50, 98, 36, 0, 0, 97], "admin", "active"⟩) :
          Db × StaffCredential).2.role ∈ ALLOWED_ROLES) ∧
    ((([⟨1, 1, "u", [36, 50, 98, 36, 0, 0, 97], "crm", "active"⟩],
        ⟨1, 1, "u", [36, 50, 98, 36, 0, 0, 97], "crm", "active"⟩) :
          Db × StaffCredential).2.role = "crm") :=
  ⟨C4_registry_amended.1 ["bogus"] "bogus" (by decide) (by decide),
   C4_registry_amended.2.1 0 [] ⟨some "u", some [97], some 1, none⟩ _
     rfl (Or.inl rfl),
   C4_registry_amended.2.2 0 [] ⟨some "u", some [97], some 1, some "crm"⟩ _
     "crm" rfl rfl (by decide)⟩

/-- C9 as stated is false: a first-ever signup that supplies a role is
not promoted to `"admin"`; the stored role is the supplied one. -/
theorem C9_counterexample :
    storedRole (signup 0 [] ⟨some "u", some [97], some 1, some "sales"⟩) =
      some "sales" ∧
    ("sales" : String) ≠ "admin" :=
  ⟨rfl, by decide⟩

/-- C9 amended: the silent admin promotion applies only when the request
supplies no (or an empty) role: then the first-ever signup stores
`"admin"` and every later one stores `"sales"`; a supplied non-empty role
is always stored as given. -/
theorem C9_first_user_amended (salt : Nat) (db : Db) (pl : SignupPayload)
    (res : Db × StaffCredential) (h : signup salt db pl = .ok res) :
    ((pl.role = none ∨ pl.role = some "") →
      res.2.role = if db.length = 0 then "admin" else "sales") ∧
    (∀ r, pl.role = some r → r ≠ "" → res.2.role = r) := by
  constructor
  · intro hrole
    rw [signup_ok_role salt db pl res h]
    rcases hrole with h1 | h1 <;> rw [h1] <;>
      cases hb : (db.length == 0) <;> simp_all [chooseRole]
  · intro r hr hne
    rw [signup_ok_role salt db pl res h, hr]
    simp [chooseRole, hne]

/-- Witness for C9 (amended) at a concrete input: the first-ever signup
with no role field stores `"admin"`. -/
theorem C9_first_user_amended_witness :
    ((([⟨1, 1, "u", [36, 50, 98, 36, 0, 0, 97], "admin", "active"⟩],
        ⟨1, 1, "u", [36, 50, 98, 36, 0, 0, 97], "admin", "active"⟩) :
          Db × StaffCredential).2.role =
      if ([] : Db).length = 0 then "admin" else "sales") :=
  (C9_first_user_amended 0 [] ⟨some "u", some [97], some 1, none⟩ _ rfl).1
    (Or.inl rfl)

